import Mathlib

/-!
Verification of the Claude Code evaluation runner of ScienceAgentBench.

This development shallowly embeds the Python modules under
`claude_code/` (`utils.py`, `prompts.py`, `claude_code_runner.py`,
`run_claude_code_eval.py`).  Pure string manipulation is translated to
executable Lean functions over `List Char`; filesystem and Docker side
effects are made explicit as state values and outcome parameters;
external library calls (the `json` module of the Python standard
library) are abstracted as function parameters that theorems quantify
over.  The ASCII fragment of the Python `str` operations is modelled;
none of the concrete inputs in this file contain non-ASCII text.
-/

set_option maxRecDepth 8000

namespace ScienceAgentBench

/-- Python character class for the regex token backslash-s and for
`str.strip()` with no argument (ASCII fragment): space, tab, newline,
carriage return, vertical tab, form feed. -/
def pyIsSpace (c : Char) : Bool :=
  c == ' ' || c == '\t' || c == '\n' || c == '\r' ||
    c == Char.ofNat 11 || c == Char.ofNat 12

/-- Python `str.strip()` on a list of characters. -/
def pyStripList (l : List Char) : List Char :=
  ((l.dropWhile pyIsSpace).reverse.dropWhile pyIsSpace).reverse

/-- Python `str.strip()`. -/
def pyStrip (s : String) : String :=
  ⟨pyStripList s.data⟩

/-- Case-insensitive prefix test (models `re.IGNORECASE` matching of a
literal pattern). -/
def ciPrefixOf : List Char → List Char → Bool
  | [], _ => true
  | _ :: _, [] => false
  | p :: ps, c :: cs => (p.toLower == c.toLower) && ciPrefixOf ps cs

/-- Substring containment, modelling the Python operator `in` on
strings for a non-empty needle. -/
def listContainsSub (pat : List Char) : List Char → Bool
  | [] => pat.isEmpty
  | c :: rest => pat.isPrefixOf (c :: rest) || listContainsSub pat rest

/-- Characters of a triple backtick fence. -/
def fenceTicks : List Char := [Char.ofNat 96, Char.ofNat 96, Char.ofNat 96]

/-- Scan forward to the first occurrence of a closing fence and return
the characters before it, or `none` when no closing fence exists.  This
is the behaviour of the lazy group in the regex patterns of
`extract_python_code` (`utils.py`, lines 112 and 117): with `re.DOTALL`
the dot matches every character, so the lazy group ends at the first
later occurrence of three backticks. -/
def takeUntilTicks : List Char → Option (List Char)
  | [] => none
  | c :: rest =>
    if fenceTicks.isPrefixOf (c :: rest) then some []
    else (takeUntilTicks rest).map (fun l => c :: l)

/-- Characters of the opening pattern of a Python-tagged fence. -/
def pyFenceOpen : List Char := fenceTicks ++ [ 'p', 'y', 't', 'h', 'o', 'n' ]

/-- Search of `utils.py` line 112: the regex
triple-backtick `python` backslash-s star, lazy group, triple-backtick,
with `re.DOTALL` and `re.IGNORECASE`.  The scan tries every start
position from the left; at a position where the opening pattern matches,
the greedy whitespace run is consumed and the lazy group ends at the
first later closing fence; when no closing fence follows, the engine
moves on to the next start position. -/
def searchPyFence : List Char → Option (List Char)
  | [] => none
  | c :: rest =>
    if ciPrefixOf pyFenceOpen (c :: rest) then
      match takeUntilTicks (((c :: rest).drop 9).dropWhile pyIsSpace) with
      | some content => some content
      | none => searchPyFence rest
    else searchPyFence rest

/-- Search of `utils.py` line 117: the regex
triple-backtick, backslash-s star, lazy group, triple-backtick, with
`re.DOTALL`; same scanning discipline as `searchPyFence`. -/
def searchGenericFence : List Char → Option (List Char)
  | [] => none
  | c :: rest =>
    if fenceTicks.isPrefixOf (c :: rest) then
      match takeUntilTicks (((c :: rest).drop 3).dropWhile pyIsSpace) with
      | some content => some content
      | none => searchGenericFence rest
    else searchGenericFence rest

/-- Python `"x".split (backslash n)` on character lists: split at every
newline; the empty list yields one empty field. -/
def splitOnNl : List Char → List (List Char)
  | [] => [[]]
  | c :: rest =>
    if c == '\n' then [] :: splitOnNl rest
    else
      match splitOnNl rest with
      | [] => [[c]]
      | h :: t => (c :: h) :: t

/-- The line-collecting loop of `utils.py` lines 129 to 134: once a line
whose stripped form starts with `import ` or `from ` is seen, that line
and every later line are collected verbatim. -/
def collectCodeLines : List (List Char) → Bool → List (List Char)
  | [], _ => []
  | ln :: rest, inCode =>
    let s := pyStripList ln
    let inCode2 := inCode || ( "import ").data.isPrefixOf s ||
      ( "from ").data.isPrefixOf s
    if inCode2 then ln :: collectCodeLines rest true
    else collectCodeLines rest false

/-- Tier 1 of `extract_python_code`: the Python-tagged fenced block,
returned stripped. -/
def pythonFenceTier (output : String) : Option String :=
  (searchPyFence output.data).map (fun l => ⟨pyStripList l⟩)

/-- Tier 2 of `extract_python_code`: the first generic fenced block,
returned stripped (the keyword filter is applied by the caller). -/
def genericFenceTier (output : String) : Option String :=
  (searchGenericFence output.data).map (fun l => ⟨pyStripList l⟩)

/-- The structural keywords of `utils.py` line 121. -/
def pyKeywords : List String :=
  [ "import ", "def ", "class ", "print(", "from " ]

/-- Keyword test of `utils.py` line 121. -/
def looksLikePython (code : String) : Bool :=
  pyKeywords.any (fun kw => listContainsSub kw.data code.data)

/-- Tier 3 of `extract_python_code` (`utils.py` lines 124 to 137): all
lines from the first import or from line to the end, newline-joined;
`none` when no such line exists. -/
def importLinesTier (output : String) : Option String :=
  let collected := collectCodeLines (splitOnNl output.data) false
  if collected.isEmpty then none
  else some ⟨List.intercalate [ '\n' ] collected⟩

/-- Tiers 3 and 4 of `extract_python_code`: the import-line heuristic,
falling back to the sentinel. -/
def importTierOrSentinel (output : String) : String :=
  match importLinesTier output with
  | some code => code
  | none => "ERROR"

/-- `extract_python_code` of `utils.py` lines 96 to 139.  Tier order:
Python-tagged fence, then generic fence filtered by structural keywords
(with fall-through when the first generic fence has no keyword), then
the import-line heuristic, then the sentinel string. -/
def extract_python_code (output : String) : String :=
  match pythonFenceTier output with
  | some code => code
  | none =>
    match genericFenceTier output with
    | some code =>
      if looksLikePython code then code
      else importTierOrSentinel output
    | none => importTierOrSentinel output

/-! ### The run ledger: `load_existing_logs` and `append_log` -/

/-- A parsed JSON value, as far as `load_existing_logs` inspects it.
Field and element values are abstracted to strings; `prim` stands for a
number, boolean or null.  This is the shape of the value returned by
`json.loads` for one ledger line. -/
inductive PyJson where
  | dict (fields : List (String × String))
  | list (elems : List String)
  | str (s : String)
  | prim
deriving DecidableEq

/-- First binding of a key in a field list (Python dict lookup). -/
def lookupField : List (String × String) → String → Option String
  | [], _ => none
  | (k2, v) :: rest, k => if k2 == k then some v else lookupField rest k

/-- The in-memory view of the ledger: task id mapped to the fields of
the latest record. -/
abbrev LogMap : Type := List (String × List (String × String))

/-- Lookup in the in-memory ledger view. -/
def lookupMap : LogMap → String → Option (List (String × String))
  | [], _ => none
  | (k2, v) :: rest, k => if k2 == k then some v else lookupMap rest k

/-- Python dict assignment `logs[id] = entry`: replace in place when
the key exists, append otherwise. -/
def dictInsert : LogMap → String → List (String × String) → LogMap
  | [], k, v => [ (k, v) ]
  | (k2, v2) :: rest, k, v =>
    if k2 == k then (k, v) :: rest else (k2, v2) :: dictInsert rest k v

/-- What the loop body of `load_existing_logs` (`utils.py` lines 157 to
164) does with one line. -/
inductive LineAction where
  | skip
  | insert (id : String) (fields : List (String × String))
  | raise
deriving DecidableEq

/-- One iteration of `load_existing_logs`: a blank line is skipped, a
line that fails JSON parsing is skipped (only `JSONDecodeError` is
caught), a parsed object without an `instance_id` key is skipped, and a
parsed object with one updates the map.  A parsed non-object makes the
Python operator `in` (or the subsequent indexing) raise `TypeError`,
which the function does not catch.  The JSON decoder of the standard
library is abstracted as the `parse` parameter (`none` models
`JSONDecodeError`). -/
def lineAction (parse : String → Option PyJson) (line : String) : LineAction :=
  if pyStrip line == "" then .skip
  else
    match parse line with
    | none => .skip
    | some (.dict fields) =>
      match lookupField fields "instance_id" with
      | some id => .insert id fields
      | none => .skip
    | some (.list elems) =>
      if elems.contains "instance_id" then .raise else .skip
    | some (.str s) =>
      if listContainsSub ( "instance_id").data s.data then .raise else .skip
    | some .prim => .raise

/-- Error raised out of the replay loop. -/
inductive LoadErr where
  | typeErr
deriving DecidableEq

/-- The replay loop of `load_existing_logs` over the lines of the
ledger file, starting from a given map. -/
def loadLines (parse : String → Option PyJson) :
    List String → LogMap → Except LoadErr LogMap
  | [], m => .ok m
  | line :: rest, m =>
    match lineAction parse line with
    | .skip => loadLines parse rest m
    | .insert id fields => loadLines parse rest (dictInsert m id fields)
    | .raise => .error .typeErr

/-- `load_existing_logs` of `utils.py` lines 142 to 166, applied to the
lines of an existing ledger file. -/
def load_existing_logs (parse : String → Option PyJson)
    (lines : List String) : Except LoadErr LogMap :=
  loadLines parse lines []

/-! ### `check_resume_condition` -/

/-- `check_resume_condition` of `utils.py` lines 54 to 93.  The
predicted-program file is modelled as `none` when absent and `some
content` when present and readable (a read failure also returns false
in the source; it is subsumed by the absent case). -/
def check_resume_condition (predFile : Option String) (instance_id : String)
    (eval_logs : LogMap) (skip_eval_check : Bool) : Bool :=
  match predFile with
  | none => false
  | some content =>
    let pred_content := pyStrip content
    if pred_content == "ERROR" || pred_content == "" then false
    else if skip_eval_check then true
    else if (lookupMap eval_logs instance_id).isSome then true
    else false

/-! ### Workspace files and `extract_program_from_workspace` -/

/-- A regular file in the root of the temporary workspace directory:
name, modification time, text content. -/
structure WorkspaceFile where
  name : String
  mtime : Nat
  content : String
deriving DecidableEq

/-- The glob pattern `*.py` of `pathlib.Path.glob` (`utils.py` line
199): the name ends in `.py`.  Unlike the `glob` module,
`pathlib.Path.glob` also matches names starting with a dot, so hidden
source files are found too. -/
def pyGlobMatch (name : String) : Bool :=
  ( ".py").data.isSuffixOf name.data

/-- Stable insertion for sorting by modification time, newest first:
the element being inserted came earlier in the original list, so with
an equal key it stays in front (Python `list.sort` is stable and
`reverse=True` does not reorder equal elements). -/
def insertByMtimeDesc (f : WorkspaceFile) :
    List WorkspaceFile → List WorkspaceFile
  | [] => [ f ]
  | g :: rest =>
    if f.mtime < g.mtime then g :: insertByMtimeDesc f rest
    else f :: g :: rest

/-- Stable sort by modification time, newest first (`utils.py` line
201). -/
def sortByMtimeDesc : List WorkspaceFile → List WorkspaceFile
  | [] => []
  | f :: rest => insertByMtimeDesc f (sortByMtimeDesc rest)

/-- `find_python_files` of `utils.py` lines 189 to 202. -/
def find_python_files (workspace : List WorkspaceFile) : List WorkspaceFile :=
  sortByMtimeDesc (workspace.filter (fun f => pyGlobMatch f.name))

/-- One element of a JSON conversation list, as far as
`extract_program_from_workspace` inspects it: a dict with an optional
string field `content`, or anything else. -/
inductive JsonMsg where
  | dict (content : Option String)
  | nondict
deriving DecidableEq

/-- The result of `json.loads` on the transcript, as far as
`extract_program_from_workspace` inspects it.  `invalid` models
`JSONDecodeError`. -/
inductive JsonView where
  | invalid
  | jlist (items : List JsonMsg)
  | jdict (content : Option String) (output : Option String)
  | jother
deriving DecidableEq

/-- The loop of `utils.py` lines 233 to 238: walk the conversation in
reverse, and return the first successfully mined code block. -/
def scanMessages : List JsonMsg → String
  | [] => "ERROR"
  | .dict content :: rest =>
    let code := extract_python_code (content.getD "")
    if code != "ERROR" then code else scanMessages rest
  | .nondict :: rest => scanMessages rest

/-- A parse function modelling `json.loads` on transcripts that are not
a single JSON document, such as the stream output of the agent: it
always raises `JSONDecodeError`. -/
def parseNonJson : String → JsonView := fun _ => JsonView.invalid

/-- `extract_program_from_workspace` of `utils.py` lines 205 to 251:
first the newest `.py` file of the workspace root, then code mined from
the JSON transcript, else the sentinel.  The JSON decoder is abstracted
as the `parse` parameter; an empty or absent transcript skips the
mining step because the Python guard `if json_output:` is false for
both. -/
def extract_program_from_workspace (parse : String → JsonView)
    (workspace : List WorkspaceFile) (json_output : Option String) : String :=
  match (find_python_files workspace).head? with
  | some f => f.content
  | none =>
    match json_output with
    | none => "ERROR"
    | some out =>
      if out == "" then "ERROR"
      else
        match parse out with
        | .invalid =>
          let code := extract_python_code out
          if code != "ERROR" then code else "ERROR"
        | .jlist items => scanMessages items.reverse
        | .jdict content output =>
          let chosen := if content.getD "" != "" then content.getD ""
            else output.getD ""
          let code := extract_python_code chosen
          if code != "ERROR" then code else "ERROR"
        | .jother => "ERROR"

/-! ### `run_task` and the run ledger records -/

/-- The fields of a task record that `run_task` uses. -/
structure TaskExample where
  instance_id : String
  gold_program_name : String
deriving DecidableEq

/-- Path of the predicted-artifact file relative to the
predicted-programs directory (`claude_code_runner.py` line 145). -/
def predFileNameOf (ex : TaskExample) : String :=
  "pred_" ++ ex.gold_program_name

/-- One Run Record as appended to the run ledger.  Fields that a code
path does not set are `none`. -/
structure RunRecord where
  instance_id : String
  output_length : Option Nat
  extracted_code_length : Option Nat
  duration : Option Nat
  exit_code : Option Int
  success : Bool
  error : Option String
deriving DecidableEq

/-- Outcome of the fallible part of the `try` block of `run_task`:
either the workspace state, transcript, exit code and duration after a
normal agent run, or the exception caught at the task boundary. -/
inductive AttemptOutcome where
  | ok (wsFiles : List WorkspaceFile) (output : String) (exitCode : Int)
      (duration : Nat)
  | exn (e : String)
deriving DecidableEq

/-- The extraction pipeline of `run_task` (`claude_code_runner.py`
lines 164 to 169): workspace extraction first, then a second direct
pass of `extract_python_code` over the raw transcript. -/
def runTaskExtract (parse : String → JsonView)
    (wsFiles : List WorkspaceFile) (output : String) : String :=
  let code := extract_program_from_workspace parse wsFiles (some output)
  if code == "ERROR" then extract_python_code output else code

/-- `run_task` of `claude_code_runner.py` lines 133 to 211, restricted
to its observable effects: the predicted-artifact file it writes (name
and content) and the result record it returns.  On the normal path the
artifact is the extraction result and the record carries all fields; on
the exception path the artifact is the sentinel and the record carries
only the task id, the success flag and the error string. -/
def runTask (parse : String → JsonView) (ex : TaskExample)
    (att : AttemptOutcome) : (String × String) × RunRecord :=
  match att with
  | .ok wsFiles output exitCode duration =>
    let code := runTaskExtract parse wsFiles output
    ( (predFileNameOf ex, code),
      ⟨ex.instance_id, some output.length, some code.length, some duration,
        some exitCode, code != "ERROR", none⟩ )
  | .exn e =>
    ( (predFileNameOf ex, "ERROR"),
      ⟨ex.instance_id, none, none, none, none, false, some e⟩ )

/-- `append_log` of `utils.py` lines 169 to 186: the record is copied
and its `instance_id` field is set to the given id before the line is
appended. -/
def appendLogRecord (instance_id : String) (r : RunRecord) : RunRecord :=
  ⟨instance_id, r.output_length, r.extracted_code_length, r.duration,
    r.exit_code, r.success, r.error⟩

/-- The per-task appends of the main loop of `run_claude_code_eval.py`
lines 269 to 283: a normal `run_task` return appends that record, and
an exception escaping `run_task` appends a record carrying only the
error string and a false success flag.  Exactly one record is appended
either way. -/
def mainLoopAppends (instance_id : String)
    (outcome : Except String RunRecord) : List RunRecord :=
  match outcome with
  | .ok r => [ appendLogRecord instance_id r ]
  | .error e =>
    [ appendLogRecord instance_id ⟨ "", none, none, none, none, false, some e⟩ ]

/-! ### Prompt composition (`prompts.py`) -/

/-- Literal segment 0 of AGENTIC_PROMPT_TEMPLATE (prompts.py). -/
def tplSeg0 : String :=
  "\nYou are solving a scientific programming task. Work autonomously through these phases:\n\n## PHASE 1: UNDERSTAND THE TASK\nRead and understand the task requirements below carefully.\n\n## PHASE 2: EXPLORE THE DATA\nUse your file reading tools to explore the dataset files. Look at:\n- File structure and formats (CSV, JSON, etc.)\n- Column names and data types\n- Sample values and data distributions\n- Any special formatting or encoding\n\n## PHASE 3: SELF-Q&A (Ask and answer your own questions)\nBefore coding, think through these questions and answer them based on your data exploration:\n\n**Q1: What is the exact input data format?**\n(Answer based on what you found in the files)\n\n**Q2: What preprocessing or data cleaning is needed?**\n(Consider missing values, data types, normalization)\n\n**Q3: What algorithm or approach should I use for this task?**\n(Consider the task requirements and data characteristics)\n\n**Q4: What is the expected output format?**\n(Check the output filename and task instructions)\n\n**Q5: Are there any edge cases or potential issues to handle?**\n(Consider data quality, special cases, error handling)\n\nWrite out your answers to help guide your implementation.\n\n## PHASE 4: PLAN THE IMPLEMENTATION\nWrite a step-by-step plan for the solution:\n1. Data loading\n2. Data preprocessing\n3. Core algorithm/analysis\n4. Output generation\n5. File saving\n\n## PHASE 5: IMPLEMENT\nWrite the complete Python program. The program must:\n1. Load data from the dataset path\n2. Process/analyze as required by the task\n3. Save output to the specified output file path\n\n**CRITICAL PATH REQUIREMENTS:**\nYour program will be evaluated in a different environment. You MUST use these EXACT paths:\n- Dataset files: `/testbed/benchmark/datasets/<dataset_name>/...`\n- Output file: `/testbed/pred_results/<output_filename>`\n\nReplace <dataset_name> with the actual dataset folder name from the task.\nReplace <output_filename> with the actual output filename (e.g., clintox_test_pred.csv).\n\nExample paths:\n- Input: `/testbed/benchmark/datasets/clintox/clintox_train.csv`\n- Output: `/testbed/pred_results/clintox_test_pred.csv`\n\nOther implementation requirements:\n- All imports must be at the top of the file\n- Ensure the output directory exists before writing (use os.makedirs)\n- Handle potential errors gracefully\n- The program must be complete and runnable standalone\n\n## PHASE 6: VERIFY\nAfter writing the code, verify:\n- All imports are at the top\n- The code is complete and can run standalone\n- Output is saved to the correct path\n- No placeholder code or TODOs remain\n\n---\n\n## TASK INSTRUCTION:\n"

/-- Literal segment 1 of AGENTIC_PROMPT_TEMPLATE (prompts.py). -/
def tplSeg1 : String :=
  "\n\n## DATASET LOCATION (for exploration):\n"

/-- Literal segment 2 of AGENTIC_PROMPT_TEMPLATE (prompts.py). -/
def tplSeg2 : String :=
  "\n(Note: Use these paths to explore data. But in your final program, use /testbed/benchmark/datasets/... paths as specified above.)\n\n## DATASET STRUCTURE:\n```\n"

/-- Literal segment 3 of AGENTIC_PROMPT_TEMPLATE (prompts.py). -/
def tplSeg3 : String :=
  "\n```\n\n## DATA PREVIEW:\n"

/-- Literal segment 4 of AGENTIC_PROMPT_TEMPLATE (prompts.py). -/
def tplSeg4 : String :=
  "\n\n## REQUIRED OUTPUT FILE:\nThe output filename is: "

/-- Literal segment 5 of AGENTIC_PROMPT_TEMPLATE (prompts.py). -/
def tplSeg5 : String :=
  "\nIn your final program, save to: /testbed/"

/-- Literal segment 6 of AGENTIC_PROMPT_TEMPLATE (prompts.py). -/
def tplSeg6 : String :=
  "\n\n---\n\nNOW BEGIN: Start with Phase 1 and work through all phases autonomously.\nUse your tools to explore files, then write and save the final Python program.\n"

/-- `format_task_prompt` of `prompts.py` lines 113 to 139:
`AGENTIC_PROMPT_TEMPLATE.format(...)`, with the placeholders filled in
template order (`output_fname` appears twice). -/
def format_task_prompt (task_inst : String) (dataset_path : String)
    (dataset_folder_tree : String) (dataset_preview : String)
    (output_fname : String) : String :=
  tplSeg0 ++ task_inst ++ tplSeg1 ++ dataset_path ++ tplSeg2 ++
    dataset_folder_tree ++ tplSeg3 ++ dataset_preview ++ tplSeg4 ++
    output_fname ++ tplSeg5 ++ output_fname ++ tplSeg6

/-- Python `str.split` at newlines, first element: the first line. -/
def firstLineOf (s : String) : String :=
  ⟨s.data.takeWhile (fun c => c != '\n')⟩

/-- Python `str.strip(chars)`: remove the leading and trailing
characters that belong to the character set of `chars`. -/
def pySetStrip (chars : String) (s : String) : String :=
  ⟨((s.data.dropWhile (fun c => chars.data.contains c)).reverse.dropWhile
      (fun c => chars.data.contains c)).reverse⟩

/-- Python `str.rstrip(chars)`: remove the trailing characters that
belong to the character set of `chars`. -/
def pyRStripSet (chars : String) (s : String) : String :=
  ⟨(s.data.reverse.dropWhile (fun c => chars.data.contains c)).reverse⟩

/-- The dataset folder name computed by the workspace builder
(`claude_code_runner.py` line 230):
first line of the folder tree, stripped of the pipe, hyphen and space
characters at both ends, then stripped of trailing slashes. -/
def setupWorkspaceDatasetName (folder_tree : String) : String :=
  pyRStripSet ( "/") (pySetStrip ( "|-- ") (firstLineOf folder_tree))

/-- The dataset folder name computed by the prompt composer
(`prompts.py` line 167): the same expression as in the workspace
builder. -/
def promptDatasetName (folder_tree : String) : String :=
  pyRStripSet ( "/") (pySetStrip ( "|-- ") (firstLineOf folder_tree))

/-- The exploration path embedded in the prompt (`prompts.py` line
173). -/
def promptDatasetPath (workspace_path : String) (folder_tree : String) : String :=
  workspace_path ++ "/benchmark/datasets/" ++ promptDatasetName folder_tree

/-- The workspace subdirectory the dataset is copied to, relative to
the workspace root (`claude_code_runner.py` line 234). -/
def workspaceDatasetSubdir (folder_tree : String) : String :=
  "benchmark/datasets/" ++ setupWorkspaceDatasetName folder_tree

/-- Errors raised by `format_task_prompt_from_example` (`prompts.py`
lines 158 to 169), each carrying what its Python message carries. -/
inductive PromptError where
  | keyErrorMissing (missing : List String)
  | valueErrorEmptyTree
  | valueErrorNoName (treeStart : String)
deriving DecidableEq

/-- The required fields, in the order of `prompts.py` line 157. -/
def requiredFields : List String :=
  [ "dataset_folder_tree", "output_fname", "task_inst", "dataset_preview" ]

/-- A task record: a field map from names to string values. -/
abbrev Example : Type := List (String × String)

/-- The missing-field list of `prompts.py` line 158. -/
def missingFieldsOf (record : Example) : List String :=
  requiredFields.filter (fun f => (lookupField record f).isNone)

/-- `format_task_prompt_from_example` of `prompts.py` lines 142 to 183.
It is a pure function of the task record: either a raised error or the
composed prompt, with no filesystem or container effect in the source.
Validation order: missing required fields first, then the empty or
whitespace-only folder tree, then the extracted dataset name being
empty. -/
def format_task_prompt_from_example (record : Example)
    (workspace_path : String) : Except PromptError String :=
  let missing := missingFieldsOf record
  if missing.isEmpty then
    let folder_tree := (lookupField record "dataset_folder_tree").getD ""
    if folder_tree == "" || pyStrip folder_tree == "" then
      .error .valueErrorEmptyTree
    else
      let dataset_name := promptDatasetName folder_tree
      if dataset_name == "" then
        .error (.valueErrorNoName ⟨folder_tree.data.take 100⟩)
      else
        .ok (format_task_prompt ((lookupField record "task_inst").getD "")
          (workspace_path ++ "/benchmark/datasets/" ++ dataset_name)
          folder_tree ((lookupField record "dataset_preview").getD "")
          ((lookupField record "output_fname").getD ""))
  else .error (.keyErrorMissing missing)

/-! ### `_run_claude_in_docker` (`claude_code_runner.py` lines 253 to 345) -/

/-- Outcomes the environment hands to each step of
`_run_claude_in_docker`: writing the prompt file, creating the
container, starting it, executing the agent command, and the two
cleanup calls `container.stop` and `container.remove(force=True)`.
An `error` value is the text of the exception the step raises. -/
structure DockerEnv where
  writePromptRes : Except String Unit
  createRes : Except String Nat
  startRes : Except String Unit
  execRes : Except String (String × Int)
  stopRes : Except String Unit
  removeRes : Except String Unit

/-- Observable cleanup actions of the final block. -/
inductive CleanupEvent where
  | stopped (cid : Nat)
  | removedForce (cid : Nat)
  | cleanupWarned (cid : Nat) (msg : String)
deriving DecidableEq

/-- The final cleanup block (`claude_code_runner.py` lines 337 to 345):
nothing when no container was created; otherwise stop then force-remove
inside one exception handler, so a failing stop skips the remove, and
any cleanup failure is only logged as a warning. -/
def cleanupContainer (env : DockerEnv) : Option Nat → List CleanupEvent
  | none => []
  | some cid =>
    match env.stopRes with
    | .error e => [ .cleanupWarned cid e ]
    | .ok _ =>
      match env.removeRes with
      | .error e => [ .stopped cid, .cleanupWarned cid e ]
      | .ok _ => [ .stopped cid, .removedForce cid ]

/-- `_run_claude_in_docker`: the returned transcript and exit code,
paired with the cleanup events of the final block.  An exception in any
step of the `try` block yields the exception text and exit code -1
instead of propagating. -/
def runClaudeInDocker (env : DockerEnv) : (String × Int) × List CleanupEvent :=
  match env.writePromptRes with
  | .error e => ((e, -1), cleanupContainer env none)
  | .ok _ =>
    match env.createRes with
    | .error e => ((e, -1), cleanupContainer env none)
    | .ok cid =>
      match env.startRes with
      | .error e => ((e, -1), cleanupContainer env (some cid))
      | .ok _ =>
        match env.execRes with
        | .error e => ((e, -1), cleanupContainer env (some cid))
        | .ok (output, exitCode) =>
          ((output, exitCode), cleanupContainer env (some cid))

/-! ### `save_evaluation_result` (`utils.py` lines 315 to 338) -/

/-- The observable state of one per-task log directory. -/
structure TaskDirState where
  evaluationJson : Option (List (String × Int))
  hasPASSED : Bool
  hasFAILED : Bool
deriving DecidableEq

/-- Integer-valued field lookup in an evaluation result. -/
def lookupIntField : List (String × Int) → String → Option Int
  | [], _ => none
  | (k2, v) :: rest, k => if k2 == k then some v else lookupIntField rest k

/-- `eval_result.get("success_rate", 0)` of `utils.py` line 331. -/
def successRateOf (eval_result : List (String × Int)) : Int :=
  (lookupIntField eval_result "success_rate").getD 0

/-- `save_evaluation_result`: write `evaluation.json`, touch the marker
file chosen by the success test, then unlink the opposite marker when
it exists. -/
def save_evaluation_result (s : TaskDirState)
    (eval_result : List (String × Int)) : TaskDirState :=
  let s0 : TaskDirState := ⟨some eval_result, s.hasPASSED, s.hasFAILED⟩
  let success := successRateOf eval_result == 1
  let s1 : TaskDirState :=
    if success then ⟨s0.evaluationJson, true, s0.hasFAILED⟩
    else ⟨s0.evaluationJson, s0.hasPASSED, true⟩
  if success then
    if s1.hasFAILED then ⟨s1.evaluationJson, s1.hasPASSED, false⟩ else s1
  else
    if s1.hasPASSED then ⟨s1.evaluationJson, false, s1.hasFAILED⟩ else s1

/-! ### Spec-side restatement of the dataset-name computation -/

/-- Remove the maximal run of trailing characters satisfying `p`,
written by direct recursion (a reformulation used to state the claimed
description of the dataset-name computation independently of the
source expression). -/
def dropTrailingIf (p : Char → Bool) : List Char → List Char
  | [] => []
  | c :: rest =>
    let r := dropTrailingIf p rest
    if r.isEmpty && p c then [] else c :: r

/-- The character set named by the claim: pipe, hyphen, space. -/
def specCharInSet (c : Char) : Bool :=
  c == '|' || c == '-' || c == ' '

/-- A slash character. -/
def specSlash (c : Char) : Bool :=
  c == '/'

/-- The dataset-name computation as the claim describes it: take the
first line of the folder tree, drop the leading and trailing characters
drawn from the pipe-hyphen-space set, then drop the trailing run of
slashes. -/
def specDatasetName (folder_tree : String) : String :=
  ⟨dropTrailingIf specSlash
    (dropTrailingIf specCharInSet
      ((firstLineOf folder_tree).data.dropWhile specCharInSet))⟩

/-! ### Concrete inputs used by witnesses and counterexamples -/

/-- A concrete task record used by the concrete evaluations below. -/
def exA : TaskExample := ⟨ "42", "gold.py"⟩

/-- A toy ledger decoder for the concrete evaluations: line `A` is a
well-formed record for task `t1`, line `5` is valid JSON that is not an
object, everything else fails to decode. -/
def parseToy : String → Option PyJson := fun s =>
  if s == "A" then
    some (PyJson.dict [ ( "instance_id", "t1"), ( "ok", "yes") ])
  else if s == "5" then some PyJson.prim
  else none

/-- A concrete two-file workspace for the concrete evaluations; the
newest source file is hidden, which `pathlib.Path.glob` still
matches. -/
def wsB : List WorkspaceFile :=
  [ ⟨ "old.py", 1, "OLD"⟩, ⟨ ".hidden.py", 7, "NEW"⟩ ]

/-- A concrete task record missing its instruction field. -/
def recordMissingInst : Example :=
  [ ( "dataset_folder_tree", "|-- ds1/\n|   |-- a.csv"),
    ( "output_fname", "pred_results/out.csv"),
    ( "dataset_preview", "a,b\n1,2") ]

/-- A concrete environment whose agent-execution step raises. -/
def envB : DockerEnv :=
  ⟨Except.ok (), Except.ok 7, Except.ok (),
    Except.error ( "agent crashed"), Except.ok (), Except.ok ()⟩

/-! ## Theorems for the claims -/

/-- C4: `extract_python_code` tries extraction tiers in a fixed order:
first a Python-tagged fenced block (returning its contents stripped),
else a generic fenced block whose contents contain one of the
structural keywords, else the lines from the first import or from line
to the end of the text, else the sentinel string; and the two concrete
inputs of the claim evaluate to the stated results. -/
theorem extract_python_code_tier_order :
    (∀ o c, pythonFenceTier o = some c → extract_python_code o = c) ∧
    (∀ o c, pythonFenceTier o = none → genericFenceTier o = some c →
      looksLikePython c = true → extract_python_code o = c) ∧
    (∀ o c, pythonFenceTier o = none → genericFenceTier o = some c →
      looksLikePython c = false →
      extract_python_code o = importTierOrSentinel o) ∧
    (∀ o, pythonFenceTier o = none → genericFenceTier o = none →
      extract_python_code o = importTierOrSentinel o) ∧
    (∀ o, importLinesTier o = none → importTierOrSentinel o = "ERROR") ∧
    extract_python_code ( "blah ```python\nimport os\nprint(1)\n``` blah") =
      "import os\nprint(1)" ∧
    extract_python_code ( "no code here") = "ERROR" := by
  refine ⟨?_, ?_, ?_, ?_, ?_, by decide, by decide⟩
  · intro o c h
    simp [extract_python_code, h]
  · intro o c h1 h2 h3
    simp [extract_python_code, h1, h2, h3]
  · intro o c h1 h2 h3
    simp [extract_python_code, h1, h2, h3]
  · intro o h1 h2
    simp [extract_python_code, h1, h2]
  · intro o h
    simp [importTierOrSentinel, h]

/-- C4 witness: the theorem applied to the concrete fenced transcript
of the claim. -/
theorem extract_python_code_tier_order_witness :
    pythonFenceTier ( "blah ```python\nimport os\nprint(1)\n``` blah") =
      some ( "import os\nprint(1)") ∧
    extract_python_code ( "blah ```python\nimport os\nprint(1)\n``` blah") =
      "import os\nprint(1)" :=
  ⟨by decide,
    extract_python_code_tier_order.1
      ( "blah ```python\nimport os\nprint(1)\n``` blah")
      ( "import os\nprint(1)") (by decide)⟩

/-- C2: `check_resume_condition` returns true exactly when the
predicted-program file exists with stripped content that is neither
empty nor the sentinel, and in addition either evaluation checking is
skipped or the task id has an entry in the evaluation-log map. -/
theorem check_resume_condition_iff :
    ∀ (predFile : Option String) (instance_id : String) (eval_logs : LogMap)
      (skip_eval_check : Bool),
    check_resume_condition predFile instance_id eval_logs skip_eval_check = true ↔
      ((∃ c, predFile = some c ∧ pyStrip c ≠ "ERROR" ∧ pyStrip c ≠ "") ∧
        (skip_eval_check = true ∨
          (lookupMap eval_logs instance_id).isSome = true)) := by
  intro predFile instance_id eval_logs skip_eval_check
  cases predFile with
  | none => simp [check_resume_condition]
  | some c =>
    by_cases h1 : pyStrip c = "ERROR"
    · simp [check_resume_condition, h1]
    · by_cases h2 : pyStrip c = ""
      · simp [check_resume_condition, h1, h2]
      · cases skip_eval_check with
        | true => simp [check_resume_condition, h1, h2]
        | false =>
          cases h3 : (lookupMap eval_logs instance_id).isSome <;>
            simp [check_resume_condition, h1, h2, h3]

/-- C9: after every `save_evaluation_result` call the per-task
directory holds exactly one of the two markers: `PASSED` exactly when
the recorded success rate equals 1, `FAILED` otherwise, with the
opposite marker removed; the evaluation result itself is rewritten. -/
theorem save_evaluation_result_marker :
    ∀ (s : TaskDirState) (eval_result : List (String × Int)),
      (save_evaluation_result s eval_result).hasPASSED =
        (successRateOf eval_result == 1) ∧
      (save_evaluation_result s eval_result).hasFAILED =
        !(successRateOf eval_result == 1) ∧
      ((save_evaluation_result s eval_result).hasPASSED ≠
        (save_evaluation_result s eval_result).hasFAILED) ∧
      (save_evaluation_result s eval_result).evaluationJson =
        some eval_result := by
  intro s eval_result
  obtain ⟨ej, p, f⟩ := s
  cases h : successRateOf eval_result == 1 <;> cases p <;> cases f <;>
    simp [save_evaluation_result, h]


/-- C1 counterexample: a normal attempt whose workspace holds one
`.py` file with empty content persists an artifact that is empty yet
not the sentinel, refuting the claim that the artifact is never empty
without being the sentinel. -/
theorem run_task_artifact_counterexample :
    (runTask parseNonJson exA
      (AttemptOutcome.ok [ ⟨ "sol.py", 3, ""⟩ ] ( "transcript text") 0 2)).1.2 =
      "" ∧
    (runTask parseNonJson exA
      (AttemptOutcome.ok [ ⟨ "sol.py", 3, ""⟩ ] ( "transcript text") 0 2)).1.2 ≠
      "ERROR" := by
  decide

/-- C1 (amended): after every attempt caught at the task boundary the
file `pred_` followed by the reference-program name is written; on the
exception path its content is exactly the sentinel, and on the normal
path its content is the result of the extraction pipeline, which may be
program text, the sentinel, or — when the newest workspace source file
or the mined block is itself empty — the empty string. -/
theorem run_task_artifact_persisted :
    ∀ (parse : String → JsonView) (ex : TaskExample) (att : AttemptOutcome),
      (runTask parse ex att).1.1 = "pred_" ++ ex.gold_program_name ∧
      (∀ e, att = AttemptOutcome.exn e → (runTask parse ex att).1.2 = "ERROR") ∧
      (∀ wsFiles output exitCode duration,
        att = AttemptOutcome.ok wsFiles output exitCode duration →
        (runTask parse ex att).1.2 = runTaskExtract parse wsFiles output) := by
  intro parse ex att
  cases att with
  | ok wsFiles output exitCode duration =>
    refine ⟨rfl, ?_, ?_⟩
    · intro e h
      cases h
    · intro ws2 out2 ec2 d2 h
      cases h
      rfl
  | exn e =>
    refine ⟨rfl, ?_, ?_⟩
    · intro e2 h
      cases h
      rfl
    · intro ws2 out2 ec2 d2 h
      cases h

/-- C1 witness: the amended theorem applied to a concrete exception
attempt. -/
theorem run_task_artifact_persisted_witness :
    (runTask parseNonJson exA (AttemptOutcome.exn ( "boom"))).1.2 = "ERROR" ∧
    (runTask parseNonJson exA (AttemptOutcome.exn ( "boom"))).1.1 =
      "pred_gold.py" :=
  ⟨(run_task_artifact_persisted parseNonJson exA
      (AttemptOutcome.exn ( "boom"))).2.1 ( "boom") rfl,
    by decide⟩

/-- C5 counterexample: the record returned for an error-path attempt
omits the transcript length, artifact length, duration and exit code,
refuting the claim that every appended record carries those fields. -/
theorem run_record_error_path_counterexample :
    (runTask parseNonJson exA (AttemptOutcome.exn ( "boom"))).2.output_length =
      none ∧
    (runTask parseNonJson exA
      (AttemptOutcome.exn ( "boom"))).2.extracted_code_length = none ∧
    (runTask parseNonJson exA (AttemptOutcome.exn ( "boom"))).2.duration = none ∧
    (runTask parseNonJson exA (AttemptOutcome.exn ( "boom"))).2.exit_code = none ∧
    (runTask parseNonJson exA (AttemptOutcome.exn ( "boom"))).2.success = false ∧
    (runTask parseNonJson exA (AttemptOutcome.exn ( "boom"))).2.error =
      some ( "boom") := by
  decide

/-- C5 (amended): every task attempt appends exactly one record to the
run ledger, always carrying the task id and a success flag; a record
produced on the normal path carries the transcript length, the artifact
length, the duration and the exit code, while a record produced on an
error path carries the error string and omits those four fields. -/
theorem run_ledger_single_append :
    ∀ (instance_id : String) (outcome : Except String RunRecord),
      (mainLoopAppends instance_id outcome).length = 1 ∧
      (∀ r, outcome = Except.ok r →
        mainLoopAppends instance_id outcome =
          [ ⟨instance_id, r.output_length, r.extracted_code_length, r.duration,
              r.exit_code, r.success, r.error⟩ ]) ∧
      (∀ e, outcome = Except.error e →
        mainLoopAppends instance_id outcome =
          [ ⟨instance_id, none, none, none, none, false, some e⟩ ]) ∧
      (∀ (parse : String → JsonView) (ex : TaskExample) wsFiles output
          exitCode duration,
        (runTask parse ex
            (AttemptOutcome.ok wsFiles output exitCode duration)).2 =
          ⟨ex.instance_id, some output.length,
            some (runTaskExtract parse wsFiles output).length, some duration,
            some exitCode, runTaskExtract parse wsFiles output != "ERROR",
            none⟩) ∧
      (∀ (parse : String → JsonView) (ex : TaskExample) e,
        (runTask parse ex (AttemptOutcome.exn e)).2 =
          ⟨ex.instance_id, none, none, none, none, false, some e⟩) := by
  intro instance_id outcome
  refine ⟨?_, ?_, ?_, ?_, ?_⟩
  · cases outcome <;> rfl
  · intro r h
    cases h
    rfl
  · intro e h
    cases h
    rfl
  · intro parse ex wsFiles output exitCode duration
    rfl
  · intro parse ex e
    rfl

/-- C5 witness: the amended theorem applied to a concrete error-path
outcome. -/
theorem run_ledger_single_append_witness :
    (mainLoopAppends ( "t9") (Except.error ( "db down"))).length = 1 ∧
    mainLoopAppends ( "t9") (Except.error ( "db down")) =
      [ ⟨ "t9", none, none, none, none, false, some ( "db down")⟩ ] :=
  ⟨(run_ledger_single_append ( "t9") (Except.error ( "db down"))).1,
    (run_ledger_single_append ( "t9") (Except.error ( "db down"))).2.2.1
      ( "db down") rfl⟩

/-- Appending a line the loop skips does not change the replay result,
whatever map the replay has accumulated. -/
theorem loadLines_append_skip (parse : String → Option PyJson) (bad : String)
    (hskip : lineAction parse bad = LineAction.skip) :
    ∀ (lines : List String) (m : LogMap),
      loadLines parse (lines ++ [ bad ]) m = loadLines parse lines m := by
  intro lines
  induction lines with
  | nil =>
    intro m
    simp [loadLines, hskip]
  | cons ln rest ih =>
    intro m
    cases h : lineAction parse ln with
    | skip => simp [loadLines, h, ih]
    | insert id fields => simp [loadLines, h, ih]
    | raise => simp [loadLines, h]

/-- Appending a line the loop inserts updates the replay result by one
dict assignment when the earlier replay succeeded, and leaves an
earlier abort unchanged. -/
theorem loadLines_append_insert (parse : String → Option PyJson) (ln : String)
    (id : String) (fields : List (String × String))
    (hact : lineAction parse ln = LineAction.insert id fields) :
    ∀ (lines : List String) (m : LogMap),
      loadLines parse (lines ++ [ ln ]) m =
        Except.map (fun m2 => dictInsert m2 id fields)
          (loadLines parse lines m) := by
  intro lines
  induction lines with
  | nil =>
    intro m
    simp [loadLines, hact, Except.map]
  | cons ln2 rest ih =>
    intro m
    cases h : lineAction parse ln2 with
    | skip => simp [loadLines, h, ih]
    | insert id2 fields2 => simp [loadLines, h, ih]
    | raise => simp [loadLines, h, Except.map]

/-- A dict assignment makes the assigned entry the one lookup finds. -/
theorem lookupMap_dictInsert :
    ∀ (m : LogMap) (id : String) (fields : List (String × String)),
      lookupMap (dictInsert m id fields) id = some fields := by
  intro m id fields
  induction m with
  | nil => simp [dictInsert, lookupMap]
  | cons kv rest ih =>
    obtain ⟨k2, v2⟩ := kv
    by_cases h : k2 = id
    · subst h
      simp [dictInsert, lookupMap]
    · simp [dictInsert, lookupMap, h, ih]


/-- C6 counterexample: a ledger line holding the JSON number `5` is a
parsed entry lacking an `instance_id` field, yet the replay raises
`TypeError` (only `JSONDecodeError` is caught) and the record of the
earlier valid line is lost, refuting the claim that such lines are
skipped without raising. -/
theorem load_existing_logs_counterexample :
    load_existing_logs parseToy [ "A" ] =
      Except.ok [ ( "t1", [ ( "instance_id", "t1"), ( "ok", "yes") ]) ] ∧
    load_existing_logs parseToy [ "A", "5" ] =
      Except.error LoadErr.typeErr :=
  ⟨rfl, rfl⟩

/-- C6 (amended): the replay skips blank lines, lines that fail JSON
decoding, and parsed JSON objects lacking an `instance_id` field — such
a line never loses the records of earlier lines — and a later object
line with the same `instance_id` supersedes the earlier record; but a
line that decodes to a JSON non-object (a number, boolean or null, or a
string or array containing `instance_id`) raises instead of being
skipped. -/
theorem load_existing_logs_replay :
    (∀ (parse : String → Option PyJson) (lines : List String) (bad : String),
      lineAction parse bad = LineAction.skip →
      load_existing_logs parse (lines ++ [ bad ]) =
        load_existing_logs parse lines) ∧
    (∀ (parse : String → Option PyJson) (lines : List String) (ln : String)
        (id : String) (fields : List (String × String)),
      lineAction parse ln = LineAction.insert id fields →
      load_existing_logs parse (lines ++ [ ln ]) =
        Except.map (fun m => dictInsert m id fields)
          (load_existing_logs parse lines)) ∧
    (∀ (m : LogMap) (id : String) (fields : List (String × String)),
      lookupMap (dictInsert m id fields) id = some fields) :=
  ⟨fun parse lines bad h => loadLines_append_skip parse bad h lines [],
    fun parse lines ln id fields h =>
      loadLines_append_insert parse ln id fields h lines [],
    lookupMap_dictInsert⟩

/-- C6 witness: the amended theorem applied to concrete ledger lines,
with every hypothesis checked by evaluation. -/
theorem load_existing_logs_replay_witness :
    lineAction parseToy ( "garbage") = LineAction.skip ∧
    load_existing_logs parseToy [ "A", "garbage" ] =
      load_existing_logs parseToy [ "A" ] ∧
    lineAction parseToy ( "A") =
      LineAction.insert ( "t1") [ ( "instance_id", "t1"), ( "ok", "yes") ] ∧
    load_existing_logs parseToy [ "garbage", "A" ] =
      Except.map
        (fun m => dictInsert m ( "t1")
          [ ( "instance_id", "t1"), ( "ok", "yes") ])
        (load_existing_logs parseToy [ "garbage" ]) :=
  ⟨by decide,
    load_existing_logs_replay.1 parseToy [ "A" ] ( "garbage") (by decide),
    by decide,
    load_existing_logs_replay.2.1 parseToy [ "garbage" ] ( "A") ( "t1")
      [ ( "instance_id", "t1"), ( "ok", "yes") ] (by decide)⟩

/-- The head of a stable insertion is the inserted element or the old
head; its key is at least the inserted key and at least the old head
key. -/
theorem head?_insertByMtimeDesc (f : WorkspaceFile) (l : List WorkspaceFile) :
    ∃ g, (insertByMtimeDesc f l).head? = some g ∧ f.mtime ≤ g.mtime ∧
      (g = f ∨ l.head? = some g) ∧
      (∀ h0, l.head? = some h0 → h0.mtime ≤ g.mtime) := by
  cases l with
  | nil =>
    refine ⟨f, rfl, Nat.le_refl _, Or.inl rfl, ?_⟩
    intro h0 h
    cases h
  | cons g rest =>
    by_cases h : f.mtime < g.mtime
    · refine ⟨g, ?_, Nat.le_of_lt h, Or.inr rfl, ?_⟩
      · simp [insertByMtimeDesc, h]
      · intro h0 hh
        cases hh
        exact Nat.le_refl _
    · refine ⟨f, ?_, Nat.le_refl _, Or.inl rfl, ?_⟩
      · simp [insertByMtimeDesc, h]
      · intro h0 hh
        cases hh
        exact Nat.le_of_not_lt h

/-- Membership through a stable insertion. -/
theorem mem_insertByMtimeDesc :
    ∀ (l : List WorkspaceFile) (f a : WorkspaceFile),
      a ∈ insertByMtimeDesc f l → a = f ∨ a ∈ l := by
  intro l
  induction l with
  | nil =>
    intro f a h
    simp [insertByMtimeDesc] at h
    exact Or.inl h
  | cons g rest ih =>
    intro f a h
    by_cases hlt : f.mtime < g.mtime
    · simp only [insertByMtimeDesc, if_pos hlt, List.mem_cons] at h
      rcases h with h | h
      · exact Or.inr (by simp [h])
      · rcases ih f a h with h2 | h2
        · exact Or.inl h2
        · exact Or.inr (by simp [h2])
    · simp only [insertByMtimeDesc, if_neg hlt, List.mem_cons] at h
      rcases h with h | h
      · exact Or.inl h
      · exact Or.inr (by simpa using h)

/-- Membership through the stable sort. -/
theorem mem_sortByMtimeDesc :
    ∀ (l : List WorkspaceFile) (a : WorkspaceFile),
      a ∈ sortByMtimeDesc l → a ∈ l := by
  intro l
  induction l with
  | nil =>
    intro a h
    exact h
  | cons f rest ih =>
    intro a h
    rcases mem_insertByMtimeDesc _ _ _ h with h2 | h2
    · simp [h2]
    · exact List.mem_cons_of_mem _ (ih a h2)

/-- The head of the stable descending sort of a non-empty list is a
member of the list with maximal modification time. -/
theorem sortByMtimeDesc_head_max :
    ∀ (l : List WorkspaceFile), l ≠ [] →
      ∃ f, (sortByMtimeDesc l).head? = some f ∧ f ∈ l ∧
        ∀ g ∈ l, g.mtime ≤ f.mtime := by
  intro l
  induction l with
  | nil =>
    intro h
    exact absurd rfl h
  | cons a rest ih =>
    intro _
    cases hrest : rest with
    | nil =>
      refine ⟨a, rfl, by simp, ?_⟩
      intro g hg
      rcases List.mem_cons.mp hg with h | h
      · cases h
        exact Nat.le_refl _
      · cases h
    | cons b rest2 =>
      obtain ⟨f0, h0, hmem0, hmax0⟩ := ih (by simp [hrest])
      obtain ⟨g, hg, hfa, hcase, hge⟩ :=
        head?_insertByMtimeDesc a (sortByMtimeDesc rest)
      rw [hrest] at h0 hmem0 hmax0
      rw [hrest] at hg hcase hge
      refine ⟨g, by simpa [sortByMtimeDesc, hrest] using hg, ?_, ?_⟩
      · rcases hcase with h | h
        · simp [h]
        · rw [h0] at h
          cases h
          exact List.mem_cons_of_mem _ hmem0
      · intro x hx
        rcases List.mem_cons.mp hx with h | h
        · cases h
          exact hfa
        · exact Nat.le_trans (hmax0 x h) (hge f0 h0)

/-- C3: whenever the workspace root holds at least one glob-matching
`.py` file, `extract_program_from_workspace` returns verbatim the full
content of the newest such file — the head of `find_python_files`,
whose modification time is maximal — regardless of the transcript
argument. -/
theorem extract_program_prefers_workspace :
    ∀ (parse : String → JsonView) (workspace : List WorkspaceFile)
      (json_output : Option String),
      workspace.filter (fun f => pyGlobMatch f.name) ≠ [] →
      ∃ f, (find_python_files workspace).head? = some f ∧
        f ∈ workspace.filter (fun f2 => pyGlobMatch f2.name) ∧
        (∀ g ∈ workspace.filter (fun f2 => pyGlobMatch f2.name),
          g.mtime ≤ f.mtime) ∧
        extract_program_from_workspace parse workspace json_output =
          f.content := by
  intro parse workspace json_output hne
  obtain ⟨f, h1, h2, h3⟩ := sortByMtimeDesc_head_max _ hne
  have h1f : (find_python_files workspace).head? = some f := h1
  refine ⟨f, h1f, h2, h3, ?_⟩
  simp [extract_program_from_workspace, h1f]


/-- C3 witness: the theorem applied to a concrete workspace and a
non-empty transcript that itself contains fenced code. -/
theorem extract_program_prefers_workspace_witness :
    wsB.filter (fun f => pyGlobMatch f.name) ≠ [] ∧
    ∃ f, (find_python_files wsB).head? = some f ∧
      f ∈ wsB.filter (fun f2 => pyGlobMatch f2.name) ∧
      (∀ g ∈ wsB.filter (fun f2 => pyGlobMatch f2.name),
        g.mtime ≤ f.mtime) ∧
      extract_program_from_workspace parseNonJson wsB
        (some ( "pre ```python\nx = 1\n``` post")) = f.content :=
  ⟨by decide,
    extract_program_prefers_workspace parseNonJson wsB
      (some ( "pre ```python\nx = 1\n``` post")) (by decide)⟩

/-- C7: `format_task_prompt_from_example` — a pure function of the
task record, with no filesystem or container effect in its source —
raises an error naming the missing field whenever a required field is
absent; raises on an empty or whitespace-only dataset folder tree;
raises when no non-empty dataset name can be extracted from the first
tree line; and succeeds exactly when none of these conditions holds. -/
theorem format_task_prompt_validation :
    ∀ (record : Example) (workspace_path : String),
      (∀ f, f ∈ requiredFields → lookupField record f = none →
        format_task_prompt_from_example record workspace_path =
          Except.error (PromptError.keyErrorMissing (missingFieldsOf record)) ∧
        f ∈ missingFieldsOf record) ∧
      (missingFieldsOf record = [] →
        pyStrip ((lookupField record "dataset_folder_tree").getD "") = "" →
        format_task_prompt_from_example record workspace_path =
          Except.error PromptError.valueErrorEmptyTree) ∧
      (missingFieldsOf record = [] →
        pyStrip ((lookupField record "dataset_folder_tree").getD "") ≠ "" →
        promptDatasetName ((lookupField record "dataset_folder_tree").getD "") =
          "" →
        format_task_prompt_from_example record workspace_path =
          Except.error (PromptError.valueErrorNoName
            ⟨((lookupField record "dataset_folder_tree").getD "").data.take
              100⟩)) ∧
      ((∃ p, format_task_prompt_from_example record workspace_path =
          Except.ok p) ↔
        (missingFieldsOf record = [] ∧
          pyStrip ((lookupField record "dataset_folder_tree").getD "") ≠ "" ∧
          promptDatasetName
            ((lookupField record "dataset_folder_tree").getD "") ≠ "")) := by
  intro record workspace_path
  refine ⟨?_, ?_, ?_, ?_⟩
  · intro f hf hnone
    have hmem : f ∈ missingFieldsOf record :=
      List.mem_filter.mpr ⟨hf, by simp [hnone]⟩
    have hne : missingFieldsOf record ≠ [] := List.ne_nil_of_mem hmem
    constructor
    · simp [format_task_prompt_from_example, List.isEmpty_iff, hne]
    · exact hmem
  · intro hmiss hstrip
    have hempty : pyStrip ((lookupField record "dataset_folder_tree").getD "") =
      "" := hstrip
    simp [format_task_prompt_from_example, List.isEmpty_iff, hmiss, hempty]
  · intro hmiss hstrip hname
    have hft : (lookupField record "dataset_folder_tree").getD "" ≠ "" := by
      intro h
      exact hstrip (by rw [h]; rfl)
    simp [format_task_prompt_from_example, List.isEmpty_iff, hmiss, hft,
      hstrip, hname]
  · by_cases h1 : missingFieldsOf record = []
    · by_cases h2 :
        pyStrip ((lookupField record "dataset_folder_tree").getD "") = ""
      · simp [format_task_prompt_from_example, List.isEmpty_iff, h1, h2]
      · have hft : (lookupField record "dataset_folder_tree").getD "" ≠ "" := by
          intro h
          exact h2 (by rw [h]; rfl)
        by_cases h3 :
          promptDatasetName ((lookupField record "dataset_folder_tree").getD "") =
            ""
        · simp [format_task_prompt_from_example, List.isEmpty_iff, h1, h2,
            hft, h3]
        · simp [format_task_prompt_from_example, List.isEmpty_iff, h1, h2,
            hft, h3]
    · simp [format_task_prompt_from_example, List.isEmpty_iff, h1]


/-- C7 witness: the theorem applied to a concrete record missing the
`task_inst` field names that field in the raised error. -/
theorem format_task_prompt_validation_witness :
    ( "task_inst") ∈ requiredFields ∧
    lookupField recordMissingInst ( "task_inst") = none ∧
    (format_task_prompt_from_example recordMissingInst ( "/workspace") =
      Except.error
        (PromptError.keyErrorMissing (missingFieldsOf recordMissingInst)) ∧
      ( "task_inst") ∈ missingFieldsOf recordMissingInst) :=
  ⟨by decide, by decide,
    (format_task_prompt_validation recordMissingInst ( "/workspace")).1
      ( "task_inst") (by decide) (by decide)⟩

/-- The returned transcript and exit code do not depend on the cleanup
outcomes. -/
theorem runClaudeInDocker_result_ignores_cleanup
    (w : Except String Unit) (c : Except String Nat) (s : Except String Unit)
    (x : Except String (String × Int)) (st1 rm1 st2 rm2 : Except String Unit) :
    (runClaudeInDocker ⟨w, c, s, x, st1, rm1⟩).1 =
      (runClaudeInDocker ⟨w, c, s, x, st2, rm2⟩).1 := by
  cases w with
  | error e => rfl
  | ok u =>
    cases c with
    | error e => rfl
    | ok cid =>
      cases s with
      | error e => rfl
      | ok u2 =>
        cases x with
        | error e => rfl
        | ok p =>
          obtain ⟨o, ec⟩ := p
          rfl

/-- C8: an exception in any step of `_run_claude_in_docker` — prompt
persistence, container creation, container start, or agent execution —
makes the function return the exception text as the transcript and -1
as the exit code instead of propagating; whenever a container was
created, the final cleanup block stops it and force-removes it, with a
cleanup failure only logged as a warning (a failing stop skips the
remove), and cleanup outcomes never change the returned value. -/
theorem run_claude_in_docker_error_handling :
    ∀ (env : DockerEnv),
      (∀ e, env.writePromptRes = Except.error e →
        (runClaudeInDocker env).1 = (e, -1)) ∧
      (∀ e, env.writePromptRes = Except.ok () →
        env.createRes = Except.error e →
        (runClaudeInDocker env).1 = (e, -1)) ∧
      (∀ e cid, env.writePromptRes = Except.ok () →
        env.createRes = Except.ok cid → env.startRes = Except.error e →
        (runClaudeInDocker env).1 = (e, -1)) ∧
      (∀ e cid, env.writePromptRes = Except.ok () →
        env.createRes = Except.ok cid → env.startRes = Except.ok () →
        env.execRes = Except.error e →
        (runClaudeInDocker env).1 = (e, -1)) ∧
      (∀ output exitCode cid, env.writePromptRes = Except.ok () →
        env.createRes = Except.ok cid → env.startRes = Except.ok () →
        env.execRes = Except.ok (output, exitCode) →
        (runClaudeInDocker env).1 = (output, exitCode)) ∧
      (∀ cid, env.writePromptRes = Except.ok () →
        env.createRes = Except.ok cid →
        ((env.stopRes = Except.ok () →
          CleanupEvent.stopped cid ∈ (runClaudeInDocker env).2 ∧
          (env.removeRes = Except.ok () →
            CleanupEvent.removedForce cid ∈ (runClaudeInDocker env).2) ∧
          (∀ e2, env.removeRes = Except.error e2 →
            CleanupEvent.cleanupWarned cid e2 ∈ (runClaudeInDocker env).2)) ∧
        (∀ e2, env.stopRes = Except.error e2 →
          CleanupEvent.cleanupWarned cid e2 ∈ (runClaudeInDocker env).2))) ∧
      (∀ st2 rm2 : Except String Unit,
        (runClaudeInDocker
          ⟨env.writePromptRes, env.createRes, env.startRes, env.execRes,
            st2, rm2⟩).1 = (runClaudeInDocker env).1) := by
  intro env
  obtain ⟨w, c, s, x, st, rm⟩ := env
  refine ⟨?_, ?_, ?_, ?_, ?_, ?_, ?_⟩
  · intro e h
    cases h
    rfl
  · intro e hw hc
    cases hw
    cases hc
    rfl
  · intro e cid hw hc hs
    cases hw
    cases hc
    cases hs
    rfl
  · intro e cid hw hc hs hx
    cases hw
    cases hc
    cases hs
    cases hx
    rfl
  · intro output exitCode cid hw hc hs hx
    cases hw
    cases hc
    cases hs
    cases hx
    rfl
  · intro cid hw hc
    cases hw
    cases hc
    have hcl : (runClaudeInDocker ⟨Except.ok (), Except.ok cid, s, x, st, rm⟩).2 =
        cleanupContainer ⟨Except.ok (), Except.ok cid, s, x, st, rm⟩ (some cid) := by
      cases s with
      | error e => rfl
      | ok u2 =>
        cases x with
        | error e => rfl
        | ok p =>
          obtain ⟨o, ec⟩ := p
          rfl
    rw [hcl]
    constructor
    · intro hst
      cases hst
      cases rm with
      | error e2 =>
        refine ⟨by simp [cleanupContainer], ?_, ?_⟩
        · intro h
          cases h
        · intro e3 h
          cases h
          simp [cleanupContainer]
      | ok u3 =>
        refine ⟨by simp [cleanupContainer], ?_, ?_⟩
        · intro h
          simp [cleanupContainer]
        · intro e3 h
          cases h
    · intro e2 hst
      cases hst
      simp [cleanupContainer]
  · intro st2 rm2
    exact runClaudeInDocker_result_ignores_cleanup w c s x st2 rm2 st rm


/-- C8 witness: the theorem applied to a concrete environment with an
execution failure shows the sentinel return and the completed cleanup. -/
theorem run_claude_in_docker_error_handling_witness :
    (runClaudeInDocker envB).1 = ( "agent crashed", -1) ∧
    CleanupEvent.stopped 7 ∈ (runClaudeInDocker envB).2 ∧
    CleanupEvent.removedForce 7 ∈ (runClaudeInDocker envB).2 := by
  refine ⟨?_, ?_, ?_⟩
  · exact (run_claude_in_docker_error_handling envB).2.2.2.1
      ( "agent crashed") 7 rfl rfl rfl rfl
  · exact ((((run_claude_in_docker_error_handling envB).2.2.2.2.2.1 7
      rfl rfl).1) rfl).1
  · exact (((((run_claude_in_docker_error_handling envB).2.2.2.2.2.1 7
      rfl rfl).1) rfl).2.1) rfl

/-- Behaviour of `dropWhile` on a list extended by one element. -/
theorem dropWhile_append_single (p : Char → Bool) :
    ∀ (l : List Char) (c : Char),
      (l ++ [ c ]).dropWhile p =
        if (l.dropWhile p).isEmpty then [ c ].dropWhile p
        else l.dropWhile p ++ [ c ] := by
  intro l
  induction l with
  | nil =>
    intro c
    simp
  | cons a t ih =>
    intro c
    by_cases h : p a
    · rw [List.cons_append, List.dropWhile_cons_of_pos h,
        List.dropWhile_cons_of_pos h]
      exact ih c
    · simp [List.dropWhile_cons, h]

/-- The recursive trailing-run remover agrees with reverse, `dropWhile`,
reverse. -/
theorem dropTrailingIf_eq (p : Char → Bool) :
    ∀ (l : List Char),
      dropTrailingIf p l = (l.reverse.dropWhile p).reverse := by
  intro l
  induction l with
  | nil => rfl
  | cons c rest ih =>
    rw [List.reverse_cons, dropWhile_append_single]
    simp only [dropTrailingIf, ih]
    by_cases hemp : (rest.reverse.dropWhile p).isEmpty
    · have hnil : rest.reverse.dropWhile p = [] := by
        cases hcase : rest.reverse.dropWhile p with
        | nil => rfl
        | cons x xs =>
          rw [hcase] at hemp
          cases hemp
      by_cases hc : p c
      · simp [hemp, hnil, hc]
      · simp [hemp, hnil, hc, List.dropWhile_cons]
    · have hrev : ((rest.reverse.dropWhile p).reverse).isEmpty = false := by
        cases hcase : rest.reverse.dropWhile p with
        | nil =>
          rw [hcase] at hemp
          exact absurd rfl hemp
        | cons x xs => simp [hcase]
      have hempf : (rest.reverse.dropWhile p).isEmpty = false := by
        cases hcase : rest.reverse.dropWhile p with
        | nil =>
          rw [hcase] at hemp
          exact absurd rfl hemp
        | cons x xs => simp [hcase]
      simp [hempf, hrev]

/-- The strip character set of the source expression coincides with the
pipe-hyphen-space predicate. -/
theorem stripSetChars_eq :
    (fun c => List.contains [ '|', '-', '-', ' ' ] c) = specCharInSet := by
  funext c
  show List.elem c [ '|', '-', '-', ' ' ] = specCharInSet c
  cases h1 : c == '|' <;> cases h2 : c == '-' <;> cases h3 : c == ' ' <;>
    simp [List.elem, specCharInSet, h1, h2, h3]

/-- The trailing character set of the source expression coincides with
the slash predicate. -/
theorem slashChars_eq :
    (fun c => List.contains [ '/' ] c) = specSlash := by
  funext c
  show List.elem c [ '/' ] = specSlash c
  cases h1 : c == '/' <;> simp [List.elem, specSlash, h1]

/-- C10: the dataset folder name computed by the workspace builder and
the one computed by the prompt composer are the same function of the
task record, and both match the claimed description — first line,
leading and trailing pipe, hyphen and space characters stripped,
trailing slashes removed — so the copied dataset directory and the
exploration path embedded in the prompt always name the same folder,
truncating identically a folder name that begins or ends with those
characters. -/
theorem dataset_name_agreement :
    ∀ (folder_tree : String) (workspace_path : String),
      setupWorkspaceDatasetName folder_tree = promptDatasetName folder_tree ∧
      promptDatasetName folder_tree = specDatasetName folder_tree ∧
      promptDatasetPath workspace_path folder_tree =
        workspace_path ++ "/benchmark/datasets/" ++
          setupWorkspaceDatasetName folder_tree ∧
      workspaceDatasetSubdir folder_tree =
        "benchmark/datasets/" ++ promptDatasetName folder_tree := by
  intro folder_tree workspace_path
  refine ⟨rfl, ?_, rfl, rfl⟩
  show pyRStripSet ( "/") (pySetStrip ( "|-- ") (firstLineOf folder_tree)) =
    specDatasetName folder_tree
  simp only [pyRStripSet, pySetStrip, specDatasetName, dropTrailingIf_eq,
    stripSetChars_eq, slashChars_eq, List.reverse_reverse]

end ScienceAgentBench
